import Mathlib

/-!
Shallow embedding of `src/apo_docopt.py`, a command-line client for the
Apollo REST API.  The script is modelled as pure functions from an
environment (file-system contents, parsed CSV rows, and the outcome of each
outgoing HTTP request) to a trace of observable events: CSV reads, HTTP
POST requests (with URL, headers and JSON body), console prints and log
lines.  Exceptions of the Python code are modelled with `Except`.
-/

set_option autoImplicit false

/-- JSON values: request bodies and response payloads. -/
inductive JsonVal : Type where
  | str (s : String)
  | num (n : Int)
  | bool (b : Bool)
  | null
  | arr (xs : List JsonVal)
  | obj (fields : List (String × JsonVal))

/-- One parsed CSV row, as `pandas` row `.to_dict()` would give it:
column name to cell value. -/
abbrev Row := List (String × JsonVal)

/-- Python `str.isspace` on the ASCII whitespace characters that
`str.strip()` removes. -/
def isPySpace (c : Char) : Bool :=
  c = ' ' || c = '\t' || c = '\n' || c = '\r' || c = '\x0b' || c = '\x0c'

/-- Python `str.strip()`: removes leading and trailing whitespace. -/
def pyStrip (s : String) : String :=
  String.mk (((s.toList.dropWhile isPySpace).reverse.dropWhile isPySpace).reverse)

/-- The header dict built in `__main__` from the API key. -/
def headers (api_key : String) : List (String × String) :=
  [("Cache-Control", "no-cache"),
   ("Content-Type", "application/json"),
   ("X-Api-Key", api_key)]

/-- `BASE_URL` of the script. -/
def BASE_URL : String := "https://api.apollo.io/v1"

/-- An HTTP response as `requests` returns it: status code, the JSON body
(`none` when `.json()` would fail to decode), and the raw text. -/
structure Response where
  status : Nat
  jsonBody : Option JsonVal
  text : String

/-- Outcome of one `requests.post` call: a response, or a transport-level
exception (connection error and the like). -/
inductive HttpOutcome : Type where
  | resp (r : Response)
  | exn (msg : String)

/-- Observable events of a run. -/
inductive Event : Type where
  | readCsv (path : String)
  | post (url : String) (hdrs : List (String × String)) (body : JsonVal)
  | print (s : String)
  | log (s : String)

/-- The environment a run executes against: file contents by path (`none`
when the file does not exist), the parsed rows of a tabular file, and the
outcome of the k-th HTTP request the process issues. -/
structure Env : Type where
  files : String → Option String
  csv : String → List Row
  net : Nat → HttpOutcome

/-- Python exceptions the script raises or catches. -/
inductive PyError : Type where
  | fileNotFound (msg : String)
  | valueError (msg : String)
  | httpError (msg : String)
  | otherError (msg : String)
  deriving DecidableEq

/-- `str(e)`: the message of an exception. -/
def PyError.msg : PyError → String
  | .fileNotFound m => m
  | .valueError m => m
  | .httpError m => m
  | .otherError m => m

/-- `requests.Response.raise_for_status` raises for 4xx and 5xx codes. -/
def raisesForStatus (status : Nat) : Bool :=
  400 ≤ status && status < 600

/-- The message of the `HTTPError` that `raise_for_status` raises
(abstracting the library's exact wording). -/
def httpErrText (status : Nat) : String :=
  toString status ++ " Error"

/-- The message of the `ValueError` that `Response.json()` raises on an
undecodable body (abstracting the library's exact wording). -/
def jsonDecodeMsg : String := "Expecting value"

/-- JSON string escaping as `json.dumps` performs it. -/
def jsonEscape (s : String) : String :=
  s.toList.foldl
    (fun acc c =>
      acc ++
        (if c = '\\' then "\\\\"
         else if c = '"' then "\\\""
         else if c = '\n' then "\\n"
         else if c = '\t' then "\\t"
         else if c = '\r' then "\\r"
         else String.mk [c]))
    ""

/-- Indentation of `json.dumps(..., indent=4)` at nesting depth `d`. -/
def jsonPad (d : Nat) : String := String.mk (List.replicate (4 * d) ' ')

mutual

/-- `json.dumps(v, indent=4)` rendered at nesting depth `d`. -/
def json_dumps_at (d : Nat) : JsonVal → String
  | .str s => "\"" ++ jsonEscape s ++ "\""
  | .num n => toString n
  | .bool b => if b then "true" else "false"
  | .null => "null"
  | .arr [] => "[]"
  | .arr (x :: xs) => "[\n" ++ json_dumps_items (d + 1) x xs ++ "\n" ++ jsonPad d ++ "]"
  | .obj [] => "\x7b\x7d"
  | .obj ((k, v) :: fs) =>
      "\x7b\n" ++ json_dumps_fields (d + 1) k v fs ++ "\n" ++ jsonPad d ++ "\x7d"
termination_by v => sizeOf v
decreasing_by all_goals (simp_wf; try omega)

/-- The comma-separated, one-per-line items of a JSON array. -/
def json_dumps_items (d : Nat) (x : JsonVal) (xs : List JsonVal) : String :=
  match xs with
  | [] => jsonPad d ++ json_dumps_at d x
  | y :: ys => jsonPad d ++ json_dumps_at d x ++ ",\n" ++ json_dumps_items d y ys
termination_by sizeOf x + sizeOf xs + 1
decreasing_by all_goals (simp_wf; try omega)

/-- The comma-separated, one-per-line entries of a JSON object. -/
def json_dumps_fields (d : Nat) (k : String) (v : JsonVal) (fs : List (String × JsonVal)) :
    String :=
  match fs with
  | [] => jsonPad d ++ "\"" ++ jsonEscape k ++ "\": " ++ json_dumps_at d v
  | (k2, v2) :: gs =>
      jsonPad d ++ "\"" ++ jsonEscape k ++ "\": " ++ json_dumps_at d v ++ ",\n" ++
        json_dumps_fields d k2 v2 gs
termination_by sizeOf v + sizeOf fs + 2
decreasing_by all_goals (simp_wf; try omega)

end

/-- `json.dumps(v, indent=4)` as `pretty_print_json` calls it. -/
def json_dumps (v : JsonVal) : String := json_dumps_at 0 v

mutual

/-- Python `repr` of a decoded JSON value (`print` applies `str`, which on
dicts and lists is `repr`). -/
def pyRepr : JsonVal → String
  | .str s => "'" ++ s ++ "'"
  | .num n => toString n
  | .bool b => if b then "True" else "False"
  | .null => "None"
  | .arr xs => "[" ++ pyReprItems xs ++ "]"
  | .obj fs => "\x7b" ++ pyReprFields fs ++ "\x7d"
termination_by v => sizeOf v
decreasing_by all_goals (simp_wf; try omega)

/-- Comma-separated `repr` of list elements. -/
def pyReprItems : List JsonVal → String
  | [] => ""
  | [x] => pyRepr x
  | x :: y :: xs => pyRepr x ++ ", " ++ pyReprItems (y :: xs)
termination_by xs => sizeOf xs
decreasing_by all_goals (simp_wf; try omega)

/-- Comma-separated `repr` of dict entries. -/
def pyReprFields : List (String × JsonVal) → String
  | [] => ""
  | [(k, v)] => "'" ++ k ++ "': " ++ pyRepr v
  | (k, v) :: g :: fs => "'" ++ k ++ "': " ++ pyRepr v ++ ", " ++ pyReprFields (g :: fs)
termination_by fs => sizeOf fs
decreasing_by all_goals (simp_wf; try omega)

end

/-- Textual form of a row as `print(f"Successfully uploaded: ...")` shows it
(abstracting the pandas `Series` rendering). -/
def rowRepr (row : Row) : String := pyRepr (JsonVal.obj row)

/-- `read_api_key`: logged events and the result. -/
def read_api_key (env : Env) : List Event × Except PyError String :=
  match env.files "api_key.key" with
  | none =>
      ([Event.log "API key file 'api_key.key' not found."],
       Except.error (PyError.fileNotFound "API key file 'api_key.key' not found."))
  | some content => ([], Except.ok (pyStrip content))

/-- The per-row upload loop of `upload_data`: one POST per row, in file
order; an HTTP error status or a transport error on a row is logged and
printed and the loop continues with the next row.  `k` is the index of the
next HTTP request in the environment. -/
def uploadRows (env : Env) (hdrs : List (String × String)) (url : String) :
    List Row → Nat → List Event
  | [], _ => []
  | row :: rest, k =>
      Event.post url hdrs (JsonVal.obj row) ::
        (match env.net k with
         | HttpOutcome.exn m =>
             [Event.log ("An error occurred: " ++ m),
              Event.print ("An error occurred: " ++ m)]
         | HttpOutcome.resp r =>
             if raisesForStatus r.status then
               [Event.log ("HTTP error occurred: " ++ httpErrText r.status),
                Event.print ("HTTP error occurred: " ++ httpErrText r.status)]
             else
               [Event.print ("Successfully uploaded: " ++ rowRepr row)]) ++
        uploadRows env hdrs url rest (k + 1)

/-- `upload_data(file_path, data_type)`: events and the raised exception,
if any.  The existence check comes first, the CSV is read next, and only
then is the data type validated. -/
def upload_data (env : Env) (hdrs : List (String × String))
    (file_path data_type : String) : List Event × Except PyError Unit :=
  if (env.files file_path).isSome then
    let readEvs := [Event.readCsv file_path]
    let rows := env.csv file_path
    if data_type = "contact" then
      (readEvs ++ uploadRows env hdrs (BASE_URL ++ "/contacts") rows 0, Except.ok ())
    else if data_type = "company" then
      (readEvs ++ uploadRows env hdrs (BASE_URL ++ "/accounts") rows 0, Except.ok ())
    else
      (readEvs ++ [Event.log ("Unsupported data type: " ++ data_type)],
       Except.error (PyError.valueError ("Unsupported data type: " ++ data_type)))
  else
    ([Event.log ("CSV file '" ++ file_path ++ "' not found.")],
     Except.error (PyError.fileNotFound ("CSV file '" ++ file_path ++ "' not found.")))

/-- Numbered printing loop of `pretty_print_json`, starting at index `idx`. -/
def printItems : Nat → List JsonVal → List Event
  | _, [] => []
  | idx, item :: rest =>
      Event.print ("Item " ++ toString idx ++ ":") ::
        Event.print (json_dumps item) :: printItems (idx + 1) rest

/-- `pretty_print_json(data)`: a dict is shown as one numbered item, a list
as one numbered item per element starting at 1, anything else is an error. -/
def pretty_print_json (data : JsonVal) : List Event :=
  match data with
  | JsonVal.obj fields => printItems 1 [JsonVal.obj fields]
  | JsonVal.arr items => printItems 1 items
  | _ =>
      [Event.log "Unexpected data format. Expected a list or dict.",
       Event.print "Unexpected data format."]

/-- The URL of the bulk-enrich endpoint. -/
def enrichUrl : String := "https://api.apollo.io/api/v1/organizations/bulk_enrich"

/-- `enrich_domains(domains)`: one POST whose body is the full domain list;
200 pretty-prints the JSON, any other status prints the status and text.
A transport error or a JSON-decode failure escapes as an exception. -/
def enrich_domains (env : Env) (hdrs : List (String × String))
    (domains : List String) : List Event × Except PyError Unit :=
  let body := JsonVal.obj [("domains", JsonVal.arr (domains.map JsonVal.str))]
  let ev := Event.post enrichUrl hdrs body
  match env.net 0 with
  | HttpOutcome.exn m => ([ev], Except.error (PyError.otherError m))
  | HttpOutcome.resp r =>
      if r.status = 200 then
        match r.jsonBody with
        | some j => (ev :: pretty_print_json j, Except.ok ())
        | none => ([ev], Except.error (PyError.valueError jsonDecodeMsg))
      else
        ([ev, Event.print ("Error: " ++ toString r.status), Event.print r.text],
         Except.ok ())

/-- The `company` branch of `__main__`. -/
def companyHandler (env : Env) (hdrs : List (String × String)) (query : String) :
    List Event :=
  let ev := Event.post (BASE_URL ++ "/accounts") hdrs (JsonVal.obj [("name", JsonVal.str query)])
  match env.net 0 with
  | HttpOutcome.exn m =>
      [ev, Event.print ("An error occurred: " ++ m), Event.log ("An error occurred: " ++ m)]
  | HttpOutcome.resp r =>
      if raisesForStatus r.status then
        [ev, Event.print ("HTTP error occurred: " ++ httpErrText r.status),
         Event.log ("HTTP error occurred: " ++ httpErrText r.status)]
      else
        match r.jsonBody with
        | some j => ev :: pretty_print_json j
        | none =>
            [ev, Event.print ("An error occurred: " ++ jsonDecodeMsg),
             Event.log ("An error occurred: " ++ jsonDecodeMsg)]

/-- The `create` branch of `__main__`. -/
def createHandler (env : Env) (hdrs : List (String × String))
    (name email company : String) : List Event :=
  let body := JsonVal.obj
    [("first_name", JsonVal.str name), ("email", JsonVal.str email),
     ("company", JsonVal.str company)]
  let ev := Event.post (BASE_URL ++ "/contacts") hdrs body
  match env.net 0 with
  | HttpOutcome.exn m =>
      [ev, Event.print ("An error occurred: " ++ m), Event.log ("An error occurred: " ++ m)]
  | HttpOutcome.resp r =>
      if raisesForStatus r.status then
        [ev, Event.print ("HTTP error occurred: " ++ httpErrText r.status),
         Event.log ("HTTP error occurred: " ++ httpErrText r.status)]
      else if r.status = 201 then
        match r.jsonBody with
        | some j => [ev, Event.print ("Contact created: " ++ pyRepr j)]
        | none =>
            [ev, Event.print ("An error occurred: " ++ jsonDecodeMsg),
             Event.log ("An error occurred: " ++ jsonDecodeMsg)]
      else if r.status = 200 then
        [ev, Event.print ("Solicitud aceptada: " ++ r.text)]
      else
        [ev]

/-- The `upload` branch of `__main__`: `FileNotFoundError` and `ValueError`
from `upload_data` are caught, printed and logged. -/
def uploadHandler (env : Env) (hdrs : List (String × String))
    (data_type file_path : String) : List Event :=
  match upload_data env hdrs file_path data_type with
  | (evs, Except.ok _) => evs
  | (evs, Except.error e) =>
      evs ++ [Event.print ("Error: " ++ e.msg), Event.log ("Error: " ++ e.msg)]

/-- The `enrich` branch of `__main__`: any exception from `enrich_domains`
is caught, printed and logged. -/
def enrichHandler (env : Env) (hdrs : List (String × String))
    (domains : List String) : List Event :=
  match enrich_domains env hdrs domains with
  | (evs, Except.ok _) => evs
  | (evs, Except.error e) =>
      evs ++ [Event.print ("Error: " ++ e.msg), Event.log ("Error: " ++ e.msg)]

/-- A parsed command line, as `docopt` delivers it to `__main__`. -/
inductive Cmd : Type where
  | company (query : String)
  | create (name email company : String)
  | upload (dataType filePath : String)
  | enrich (domains : List String)

/-- Outcome of one whole process run: its event trace and its exit code. -/
structure MainResult : Type where
  events : List Event
  exitCode : Nat

/-- The `__main__` block: read the key (exit 1 when missing, before any
network activity), build the headers, dispatch on the subcommand, exit 0. -/
def main_run (env : Env) (cmd : Cmd) : MainResult :=
  match read_api_key env with
  | (evs, Except.error e) =>
      ⟨evs ++ [Event.print ("Error: " ++ e.msg),
               Event.log "Exiting due to missing API key file."], 1⟩
  | (evs, Except.ok api_key) =>
      let hdrs := headers api_key
      let handlerEvents :=
        match cmd with
        | Cmd.company q => companyHandler env hdrs q
        | Cmd.create n e c => createHandler env hdrs n e c
        | Cmd.upload t f => uploadHandler env hdrs t f
        | Cmd.enrich ds => enrichHandler env hdrs ds
      ⟨evs ++ handlerEvents, 0⟩

/-- Whether an event is an HTTP request. -/
def isPost : Event → Bool
  | Event.post _ _ _ => true
  | _ => false

/-- The HTTP requests of a trace, in order. -/
def posts (evs : List Event) : List Event := evs.filter isPost

/-- The text of a print event. -/
def printed? : Event → Option String
  | Event.print s => some s
  | _ => none

/-- The console output of a trace, in order. -/
def prints (evs : List Event) : List String := evs.filterMap printed?

/-- The header set of a request event. -/
def postHdr? : Event → Option (List (String × String))
  | Event.post _ h _ => some h
  | _ => none

/-- The header sets of the HTTP requests of a trace, in order. -/
def postHdrs (evs : List Event) : List (List (String × String)) :=
  evs.filterMap postHdr?

/-- The text of a log event. -/
def logged? : Event → Option String
  | Event.log s => some s
  | _ => none

/-- The logger output of a trace, in order. -/
def logs (evs : List Event) : List String := evs.filterMap logged?

/-- Whether `pat` occurs in `s` as a substring. -/
def strContains (s pat : String) : Prop := pat.toList <:+: s.toList

instance (s pat : String) : Decidable (strContains s pat) :=
  List.decidableInfix pat.toList s.toList

section TraceLemmas

/-- The numbered-item printer only prints. -/
theorem printItems_not_post (idx : Nat) (xs : List JsonVal) :
    ∀ a ∈ printItems idx xs, isPost a = false := by
  induction xs generalizing idx with
  | nil => simp [printItems]
  | cons x rest ih => simpa [printItems, isPost] using ih (idx + 1)

/-- `pretty_print_json` only prints and logs. -/
theorem pretty_print_json_not_post (j : JsonVal) :
    ∀ a ∈ pretty_print_json j, isPost a = false := by
  cases j with
  | arr xs => exact printItems_not_post 1 xs
  | obj fs => exact printItems_not_post 1 [JsonVal.obj fs]
  | str s => simp [pretty_print_json, isPost]
  | num n => simp [pretty_print_json, isPost]
  | bool b => simp [pretty_print_json, isPost]
  | null => simp [pretty_print_json, isPost]

/-- The numbered-item printer emits no HTTP requests. -/
theorem posts_printItems (idx : Nat) (xs : List JsonVal) :
    posts (printItems idx xs) = [] := by
  refine List.filter_eq_nil_iff.mpr ?_
  intro a ha
  simp [printItems_not_post idx xs a ha]

/-- `pretty_print_json` emits no HTTP requests. -/
theorem posts_pretty_print_json (j : JsonVal) : posts (pretty_print_json j) = [] := by
  refine List.filter_eq_nil_iff.mpr ?_
  intro a ha
  simp [pretty_print_json_not_post j a ha]

/-- The numbered-item printer carries no request headers. -/
theorem postHdrs_printItems (idx : Nat) (xs : List JsonVal) :
    postHdrs (printItems idx xs) = [] := by
  induction xs generalizing idx with
  | nil => rfl
  | cons x rest ih => simpa [printItems, postHdrs, postHdr?] using ih (idx + 1)

/-- `pretty_print_json` carries no request headers. -/
theorem postHdrs_pretty_print_json (j : JsonVal) : postHdrs (pretty_print_json j) = [] := by
  cases j with
  | arr xs => exact postHdrs_printItems 1 xs
  | obj fs => exact postHdrs_printItems 1 [JsonVal.obj fs]
  | str s => rfl
  | num n => rfl
  | bool b => rfl
  | null => rfl

/-- The upload loop posts exactly one request per row, in row order, with
the given headers and the row dict as body — whatever each request's
outcome is. -/
theorem posts_uploadRows (env : Env) (hdrs : List (String × String)) (url : String)
    (rows : List Row) (k : Nat) :
    posts (uploadRows env hdrs url rows k) =
      rows.map fun row => Event.post url hdrs (JsonVal.obj row) := by
  induction rows generalizing k with
  | nil => rfl
  | cons row rest ih =>
      cases hnet : env.net k with
      | exn m =>
          simp [uploadRows, hnet, posts, List.filter, isPost]
          exact ih (k + 1)
      | resp r =>
          by_cases hs : raisesForStatus r.status <;>
            simp [uploadRows, hnet, hs, posts, List.filter, isPost] <;>
            exact ih (k + 1)

/-- Every request of the upload loop carries the given headers. -/
theorem postHdrs_uploadRows (env : Env) (hdrs : List (String × String)) (url : String)
    (rows : List Row) (k : Nat) :
    postHdrs (uploadRows env hdrs url rows k) = List.replicate rows.length hdrs := by
  induction rows generalizing k with
  | nil => rfl
  | cons row rest ih =>
      cases hnet : env.net k with
      | exn m =>
          simp [uploadRows, hnet, postHdrs, postHdr?, List.filterMap, List.replicate]
          exact ih (k + 1)
      | resp r =>
          by_cases hs : raisesForStatus r.status <;>
            simp [uploadRows, hnet, hs, postHdrs, postHdr?, List.filterMap,
              List.replicate] <;>
            exact ih (k + 1)

end TraceLemmas

section TraceKit

@[simp] theorem posts_nil : posts [] = [] := rfl

@[simp] theorem posts_cons_post (u : String) (h : List (String × String)) (b : JsonVal)
    (evs : List Event) : posts (Event.post u h b :: evs) = Event.post u h b :: posts evs := by
  simp [posts, List.filter, isPost]

@[simp] theorem posts_cons_print (s : String) (evs : List Event) :
    posts (Event.print s :: evs) = posts evs := by
  simp [posts, List.filter, isPost]

@[simp] theorem posts_cons_log (s : String) (evs : List Event) :
    posts (Event.log s :: evs) = posts evs := by
  simp [posts, List.filter, isPost]

@[simp] theorem posts_cons_readCsv (p : String) (evs : List Event) :
    posts (Event.readCsv p :: evs) = posts evs := by
  simp [posts, List.filter, isPost]

@[simp] theorem posts_append (a b : List Event) : posts (a ++ b) = posts a ++ posts b := by
  simp [posts]

@[simp] theorem prints_nil : prints [] = [] := rfl

@[simp] theorem prints_cons_print (s : String) (evs : List Event) :
    prints (Event.print s :: evs) = s :: prints evs := by
  simp [prints, printed?]

@[simp] theorem prints_cons_post (u : String) (h : List (String × String)) (b : JsonVal)
    (evs : List Event) : prints (Event.post u h b :: evs) = prints evs := by
  simp [prints, printed?]

@[simp] theorem prints_cons_log (s : String) (evs : List Event) :
    prints (Event.log s :: evs) = prints evs := by
  simp [prints, printed?]

@[simp] theorem prints_cons_readCsv (p : String) (evs : List Event) :
    prints (Event.readCsv p :: evs) = prints evs := by
  simp [prints, printed?]

@[simp] theorem prints_append (a b : List Event) :
    prints (a ++ b) = prints a ++ prints b := by
  simp [prints]

@[simp] theorem postHdrs_nil : postHdrs [] = [] := rfl

@[simp] theorem postHdrs_cons_post (u : String) (h : List (String × String)) (b : JsonVal)
    (evs : List Event) : postHdrs (Event.post u h b :: evs) = h :: postHdrs evs := by
  simp [postHdrs, postHdr?]

@[simp] theorem postHdrs_cons_print (s : String) (evs : List Event) :
    postHdrs (Event.print s :: evs) = postHdrs evs := by
  simp [postHdrs, postHdr?]

@[simp] theorem postHdrs_cons_log (s : String) (evs : List Event) :
    postHdrs (Event.log s :: evs) = postHdrs evs := by
  simp [postHdrs, postHdr?]

@[simp] theorem postHdrs_cons_readCsv (p : String) (evs : List Event) :
    postHdrs (Event.readCsv p :: evs) = postHdrs evs := by
  simp [postHdrs, postHdr?]

@[simp] theorem postHdrs_append (a b : List Event) :
    postHdrs (a ++ b) = postHdrs a ++ postHdrs b := by
  simp [postHdrs]

end TraceKit

section WitnessEnvs

/-- A successful HTTP response with a decodable empty-object body. -/
def okOutcome : HttpOutcome := HttpOutcome.resp ⟨200, some (JsonVal.obj []), "ok"⟩

/-- An environment with no files at all. -/
def envNoKey : Env := ⟨fun _ => none, fun _ => [], fun _ => okOutcome⟩

/-- Three parsed rows of a demo upload file. -/
def demoRows : List Row :=
  [[("name", JsonVal.str "Ada"), ("email", JsonVal.str "ada@x.io")],
   [("name", JsonVal.str "Bob"), ("email", JsonVal.str "bob@x.io")],
   [("name", JsonVal.str "Cyd"), ("email", JsonVal.str "cyd@x.io")]]

/-- An environment whose key file content ends in a newline and whose
three-row upload file gets an HTTP 500 on its second request. -/
def envDemo : Env :=
  ⟨fun p => if p = "api_key.key" then some "ABC123\n"
    else if p = "rows.csv" then some "name,email\nAda,ada@x.io\nBob,bob@x.io\nCyd,cyd@x.io\n"
    else none,
   fun p => if p = "rows.csv" then demoRows else [],
   fun k => if k = 1 then HttpOutcome.resp ⟨500, none, "server error"⟩ else okOutcome⟩

/-- An environment whose key file content is padded on both sides. -/
def envPadKey : Env :=
  ⟨fun p => if p = "api_key.key" then some " ABC123 " else none,
   fun _ => [], fun _ => okOutcome⟩

/-- Key present; every request is answered with status 200 and text `ok`. -/
def envAccepted : Env :=
  ⟨fun p => if p = "api_key.key" then some "K" else none,
   fun _ => [], fun _ => HttpOutcome.resp ⟨200, some (JsonVal.obj []), "ok"⟩⟩

/-- Key present; every request is answered with status 201 and a JSON body. -/
def envCreated : Env :=
  ⟨fun p => if p = "api_key.key" then some "K" else none,
   fun _ => [],
   fun _ => HttpOutcome.resp ⟨201, some (JsonVal.obj [("id", JsonVal.num 7)]), "created"⟩⟩

end WitnessEnvs

section HandlerHeaderLemmas

/-- Every request the company handler issues carries the given headers. -/
theorem postHdrs_companyHandler (env : Env) (hdrs : List (String × String)) (q : String) :
    ∀ h ∈ postHdrs (companyHandler env hdrs q), h = hdrs := by
  cases hnet : env.net 0 with
  | exn m => simp [companyHandler, hnet]
  | resp r =>
      by_cases hs : raisesForStatus r.status
      · simp [companyHandler, hnet, hs]
      · cases hj : r.jsonBody with
        | some j => simp [companyHandler, hnet, hs, hj, postHdrs_pretty_print_json]
        | none => simp [companyHandler, hnet, hs, hj]

/-- Every request the create handler issues carries the given headers. -/
theorem postHdrs_createHandler (env : Env) (hdrs : List (String × String))
    (n e c : String) : ∀ h ∈ postHdrs (createHandler env hdrs n e c), h = hdrs := by
  cases hnet : env.net 0 with
  | exn m => simp [createHandler, hnet]
  | resp r =>
      by_cases hs : raisesForStatus r.status
      · simp [createHandler, hnet, hs]
      · by_cases h201 : r.status = 201
        · cases hj : r.jsonBody with
          | some j =>
              simp [createHandler, hnet, hs, h201, hj,
                (by decide : raisesForStatus 201 = false)]
          | none =>
              simp [createHandler, hnet, hs, h201, hj,
                (by decide : raisesForStatus 201 = false)]
        · by_cases h200 : r.status = 200 <;>
            simp [createHandler, hnet, hs, h201, h200,
              (by decide : raisesForStatus 200 = false)]

/-- `upload_data` on a missing file: log and raise `FileNotFoundError`. -/
theorem upload_data_missing (env : Env) (hdrs : List (String × String)) (f t : String)
    (hf : env.files f = none) :
    upload_data env hdrs f t =
      ([Event.log ("CSV file '" ++ f ++ "' not found.")],
       Except.error (PyError.fileNotFound ("CSV file '" ++ f ++ "' not found."))) := by
  simp [upload_data, hf]

/-- `upload_data` on an existing file with type `contact`. -/
theorem upload_data_contact (env : Env) (hdrs : List (String × String)) (f : String)
    (hf : (env.files f).isSome) :
    upload_data env hdrs f "contact" =
      (Event.readCsv f :: uploadRows env hdrs (BASE_URL ++ "/contacts") (env.csv f) 0,
       Except.ok ()) := by
  simp [upload_data, hf]

/-- `upload_data` on an existing file with type `company`. -/
theorem upload_data_company (env : Env) (hdrs : List (String × String)) (f : String)
    (hf : (env.files f).isSome) :
    upload_data env hdrs f "company" =
      (Event.readCsv f :: uploadRows env hdrs (BASE_URL ++ "/accounts") (env.csv f) 0,
       Except.ok ()) := by
  simp [upload_data, hf]

/-- `upload_data` on an existing file with an unsupported type: the file is
read, then the type error is logged and raised. -/
theorem upload_data_badtype (env : Env) (hdrs : List (String × String)) (f t : String)
    (hf : (env.files f).isSome) (h1 : t ≠ "contact") (h2 : t ≠ "company") :
    upload_data env hdrs f t =
      ([Event.readCsv f, Event.log ("Unsupported data type: " ++ t)],
       Except.error (PyError.valueError ("Unsupported data type: " ++ t))) := by
  simp [upload_data, hf, h1, h2]

/-- The upload branch on a missing file. -/
theorem uploadHandler_missing (env : Env) (hdrs : List (String × String)) (t f : String)
    (hf : env.files f = none) :
    uploadHandler env hdrs t f =
      [Event.log ("CSV file '" ++ f ++ "' not found."),
       Event.print ("Error: " ++ ("CSV file '" ++ f ++ "' not found.")),
       Event.log ("Error: " ++ ("CSV file '" ++ f ++ "' not found."))] := by
  unfold uploadHandler
  rw [upload_data_missing env hdrs f t hf]
  rfl

/-- The upload branch on an existing file with type `contact`. -/
theorem uploadHandler_contact (env : Env) (hdrs : List (String × String)) (f : String)
    (hf : (env.files f).isSome) :
    uploadHandler env hdrs "contact" f =
      Event.readCsv f :: uploadRows env hdrs (BASE_URL ++ "/contacts") (env.csv f) 0 := by
  unfold uploadHandler
  rw [upload_data_contact env hdrs f hf]

/-- The upload branch on an existing file with type `company`. -/
theorem uploadHandler_company (env : Env) (hdrs : List (String × String)) (f : String)
    (hf : (env.files f).isSome) :
    uploadHandler env hdrs "company" f =
      Event.readCsv f :: uploadRows env hdrs (BASE_URL ++ "/accounts") (env.csv f) 0 := by
  unfold uploadHandler
  rw [upload_data_company env hdrs f hf]

/-- The upload branch on an existing file with an unsupported type. -/
theorem uploadHandler_badtype (env : Env) (hdrs : List (String × String)) (f t : String)
    (hf : (env.files f).isSome) (h1 : t ≠ "contact") (h2 : t ≠ "company") :
    uploadHandler env hdrs t f =
      [Event.readCsv f, Event.log ("Unsupported data type: " ++ t),
       Event.print ("Error: " ++ ("Unsupported data type: " ++ t)),
       Event.log ("Error: " ++ ("Unsupported data type: " ++ t))] := by
  unfold uploadHandler
  rw [upload_data_badtype env hdrs f t hf h1 h2]
  rfl

/-- Every request the upload handler issues carries the given headers. -/
theorem postHdrs_uploadHandler (env : Env) (hdrs : List (String × String))
    (t f : String) : ∀ h ∈ postHdrs (uploadHandler env hdrs t f), h = hdrs := by
  by_cases hf : (env.files f).isSome
  · by_cases ht : t = "contact"
    · subst ht
      rw [uploadHandler_contact env hdrs f hf]
      simp [postHdrs_uploadRows, List.mem_replicate]
    · by_cases ht2 : t = "company"
      · subst ht2
        rw [uploadHandler_company env hdrs f hf]
        simp [postHdrs_uploadRows, List.mem_replicate]
      · rw [uploadHandler_badtype env hdrs f t hf ht ht2]
        simp
  · rw [uploadHandler_missing env hdrs t f (Option.not_isSome_iff_eq_none.mp hf)]
    simp

/-- Every request the enrich handler issues carries the given headers. -/
theorem postHdrs_enrichHandler (env : Env) (hdrs : List (String × String))
    (ds : List String) : ∀ h ∈ postHdrs (enrichHandler env hdrs ds), h = hdrs := by
  cases hnet : env.net 0 with
  | exn m => simp [enrichHandler, enrich_domains, hnet]
  | resp r =>
      by_cases hs : r.status = 200
      · cases hj : r.jsonBody with
        | some j =>
            simp [enrichHandler, enrich_domains, hnet, hs, hj, postHdrs_pretty_print_json]
        | none => simp [enrichHandler, enrich_domains, hnet, hs, hj]
      · simp [enrichHandler, enrich_domains, hnet, hs]

end HandlerHeaderLemmas

/-- C1: If the credential file `api_key.key` does not exist, the process
logs and prints the missing-credential error and exits with code 1; its
trace holds no HTTP request and no handler output. -/
theorem missing_key_exits_one (env : Env) (cmd : Cmd)
    (hfile : env.files "api_key.key" = none) :
    main_run env cmd =
      ⟨[Event.log "API key file 'api_key.key' not found.",
        Event.print ("Error: " ++ "API key file 'api_key.key' not found."),
        Event.log "Exiting due to missing API key file."], 1⟩ ∧
    posts (main_run env cmd).events = [] := by
  have hrun : main_run env cmd =
      ⟨[Event.log "API key file 'api_key.key' not found.",
        Event.print ("Error: " ++ "API key file 'api_key.key' not found."),
        Event.log "Exiting due to missing API key file."], 1⟩ := by
    simp [main_run, read_api_key, hfile, PyError.msg]
  exact ⟨hrun, by rw [hrun]; rfl⟩

/-- Witness for C1 at a concrete environment with no files. -/
theorem missing_key_exits_one_witness :
    main_run envNoKey (Cmd.company "Acme") =
      ⟨[Event.log "API key file 'api_key.key' not found.",
        Event.print ("Error: " ++ "API key file 'api_key.key' not found."),
        Event.log "Exiting due to missing API key file."], 1⟩ ∧
    posts (main_run envNoKey (Cmd.company "Acme")).events = [] :=
  missing_key_exits_one envNoKey (Cmd.company "Acme") rfl

/-- Whenever the credential file exists, the process exits with code 0 for
every subcommand and every environment — whatever each downstream request's
outcome is. -/
theorem exit_zero_when_key_present (env : Env) (cmd : Cmd) (content : String)
    (hfile : env.files "api_key.key" = some content) :
    (main_run env cmd).exitCode = 0 := by
  simp [main_run, read_api_key, hfile]

/-- Key present, second upload request fails with HTTP 500, exit code is
still 0. -/
theorem exit_zero_when_key_present_at_demo :
    (main_run envDemo (Cmd.upload "contact" "rows.csv")).exitCode = 0 :=
  exit_zero_when_key_present envDemo (Cmd.upload "contact" "rows.csv") "ABC123\n" rfl

/-- C10: `read_api_key` strips leading as well as trailing whitespace:
a key file containing `" ABC123 "` yields the key `"ABC123"`, and the strip
also removes surrounding newlines. -/
theorem read_api_key_strips_surrounding (env : Env)
    (hfile : env.files "api_key.key" = some " ABC123 ") :
    read_api_key env = ([], Except.ok "ABC123") ∧
    pyStrip "\n ABC123 \n" = "ABC123" := by
  constructor
  · have hkey : pyStrip " ABC123 " = "ABC123" := by decide
    simp [read_api_key, hfile, hkey]
  · decide

/-- Witness for C10 at a concrete environment. -/
theorem read_api_key_strips_surrounding_witness :
    read_api_key envPadKey = ([], Except.ok "ABC123") ∧
    pyStrip "\n ABC123 \n" = "ABC123" :=
  read_api_key_strips_surrounding envPadKey rfl

/-- C7: With a credential file containing `"ABC123\n"`, every HTTP request
of every subcommand carries the header `X-Api-Key: ABC123` — the trailing
whitespace is stripped before the key is placed in the headers. -/
theorem api_key_header_stripped (env : Env) (cmd : Cmd)
    (hfile : env.files "api_key.key" = some "ABC123\n") :
    ∀ h ∈ postHdrs (main_run env cmd).events,
      h.lookup "X-Api-Key" = some "ABC123" := by
  have hread : read_api_key env = ([], Except.ok "ABC123") := by
    have hkey : pyStrip "ABC123\n" = "ABC123" := by decide
    simp [read_api_key, hfile, hkey]
  intro h hmem
  have hlk : h = headers "ABC123" := by
    cases cmd with
    | company q =>
        have hev : (main_run env (Cmd.company q)).events =
            companyHandler env (headers "ABC123") q := by
          simp [main_run, hread]
        exact postHdrs_companyHandler env (headers "ABC123") q h (hev ▸ hmem)
    | create n e c =>
        have hev : (main_run env (Cmd.create n e c)).events =
            createHandler env (headers "ABC123") n e c := by
          simp [main_run, hread]
        exact postHdrs_createHandler env (headers "ABC123") n e c h (hev ▸ hmem)
    | upload t f =>
        have hev : (main_run env (Cmd.upload t f)).events =
            uploadHandler env (headers "ABC123") t f := by
          simp [main_run, hread]
        exact postHdrs_uploadHandler env (headers "ABC123") t f h (hev ▸ hmem)
    | enrich ds =>
        have hev : (main_run env (Cmd.enrich ds)).events =
            enrichHandler env (headers "ABC123") ds := by
          simp [main_run, hread]
        exact postHdrs_enrichHandler env (headers "ABC123") ds h (hev ▸ hmem)
  rw [hlk]
  rfl

/-- Witness for C7: the enrich request of a concrete run carries
`X-Api-Key: ABC123`. -/
theorem api_key_header_stripped_witness :
    List.lookup "X-Api-Key" (headers "ABC123") = some "ABC123" :=
  api_key_header_stripped envDemo (Cmd.enrich ["example.com"]) rfl
    (headers "ABC123") (by simp [main_run, read_api_key, envDemo, pyStrip, isPySpace,
      enrichHandler, enrich_domains, okOutcome])

/-- C2: For an existing upload file of type `contact` or `company`, the
upload handler issues exactly one POST per parsed row, in file order, with
the row dict as body — for every environment, hence whatever any row's
outcome is (a failed row never stops the remaining rows). -/
theorem upload_one_post_per_row (env : Env) (hdrs : List (String × String))
    (fp content dt : String) (hfile : env.files fp = some content)
    (hdt : dt = "contact" ∨ dt = "company") :
    posts (uploadHandler env hdrs dt fp) =
      (env.csv fp).map
        (fun row => Event.post
          (if dt = "contact" then BASE_URL ++ "/contacts" else BASE_URL ++ "/accounts")
          hdrs (JsonVal.obj row)) ∧
    (posts (uploadHandler env hdrs dt fp)).length = (env.csv fp).length := by
  have hf : (env.files fp).isSome := by rw [hfile]; rfl
  rcases hdt with h | h
  · subst h
    rw [uploadHandler_contact env hdrs fp hf]
    constructor
    · simp [posts_uploadRows]
    · simp [posts_uploadRows]
  · subst h
    rw [uploadHandler_company env hdrs fp hf]
    constructor
    · simp [posts_uploadRows]
    · simp [posts_uploadRows]

/-- Witness for C2: a 3-row file whose second request fails with HTTP 500
still produces one POST per row. -/
theorem upload_one_post_per_row_witness :
    posts (uploadHandler envDemo (headers "ABC123") "contact" "rows.csv") =
      (envDemo.csv "rows.csv").map
        (fun row => Event.post
          (if "contact" = "contact" then BASE_URL ++ "/contacts" else BASE_URL ++ "/accounts")
          (headers "ABC123") (JsonVal.obj row)) ∧
    (posts (uploadHandler envDemo (headers "ABC123") "contact" "rows.csv")).length =
      (envDemo.csv "rows.csv").length :=
  upload_one_post_per_row envDemo (headers "ABC123") "rows.csv"
    "name,email\nAda,ada@x.io\nBob,bob@x.io\nCyd,cyd@x.io\n" "contact" rfl (Or.inl rfl)

/-- The three-row demo file yields exactly three POST requests even though
its second request fails. -/
example : (posts (uploadHandler envDemo (headers "ABC123") "contact" "rows.csv")).length = 3 := by
  rfl

/-- C3: the enrich handler issues exactly one POST, to the bulk-enrich URL,
whose JSON body is the object with the single field `domains` holding the
full argument list in order — in every environment. -/
theorem enrich_single_post_full_list (env : Env) (hdrs : List (String × String))
    (domains : List String) :
    posts (enrichHandler env hdrs domains) =
      [Event.post enrichUrl hdrs
        (JsonVal.obj [("domains", JsonVal.arr (domains.map JsonVal.str))])] := by
  cases hnet : env.net 0 with
  | exn m => simp [enrichHandler, enrich_domains, hnet]
  | resp r =>
      by_cases hs : r.status = 200
      · cases hj : r.jsonBody with
        | some j =>
            simp [enrichHandler, enrich_domains, hnet, hs, hj, posts_pretty_print_json]
        | none => simp [enrichHandler, enrich_domains, hnet, hs, hj]
      · simp [enrichHandler, enrich_domains, hnet, hs]

/-- The body sent for `enrich example.com other.org`. -/
example :
    posts (enrichHandler envDemo (headers "ABC123") ["example.com", "other.org"]) =
      [Event.post enrichUrl (headers "ABC123")
        (JsonVal.obj [("domains",
          JsonVal.arr [JsonVal.str "example.com", JsonVal.str "other.org"])])] := by
  rfl

/-- C5: an `upload` run with a type that is neither `contact` nor `company`
prints the unsupported-data-type error and issues zero HTTP requests. -/
theorem upload_invalid_type_zero_requests (env : Env) (key fp content dt : String)
    (hkeyf : env.files "api_key.key" = some key)
    (hfile : env.files fp = some content)
    (h1 : dt ≠ "contact") (h2 : dt ≠ "company") :
    posts (main_run env (Cmd.upload dt fp)).events = [] ∧
    prints (main_run env (Cmd.upload dt fp)).events =
      ["Error: " ++ ("Unsupported data type: " ++ dt)] := by
  have hf : (env.files fp).isSome := by rw [hfile]; rfl
  have hev : (main_run env (Cmd.upload dt fp)).events =
      uploadHandler env (headers (pyStrip key)) dt fp := by
    simp [main_run, read_api_key, hkeyf]
  rw [hev, uploadHandler_badtype env (headers (pyStrip key)) fp dt hf h1 h2]
  exact ⟨rfl, rfl⟩

/-- Witness for C5 at type `invoice`. -/
theorem upload_invalid_type_zero_requests_witness :
    posts (main_run envDemo (Cmd.upload "invoice" "rows.csv")).events = [] ∧
    prints (main_run envDemo (Cmd.upload "invoice" "rows.csv")).events =
      ["Error: " ++ ("Unsupported data type: " ++ "invoice")] :=
  upload_invalid_type_zero_requests envDemo "ABC123\n" "rows.csv"
    "name,email\nAda,ada@x.io\nBob,bob@x.io\nCyd,cyd@x.io\n" "invoice" rfl rfl
    (by decide) (by decide)

/-- C9: in the upload handler the existence check precedes the type check:
a missing file reports `file not found` whatever the type is (no CSV read),
while an existing file with an unsupported type is read first — the
`readCsv` event precedes the type error in the trace. -/
theorem upload_file_check_before_type_check (env : Env) (hdrs : List (String × String))
    (fp dt : String) :
    (env.files fp = none →
      uploadHandler env hdrs dt fp =
        [Event.log ("CSV file '" ++ fp ++ "' not found."),
         Event.print ("Error: " ++ ("CSV file '" ++ fp ++ "' not found.")),
         Event.log ("Error: " ++ ("CSV file '" ++ fp ++ "' not found."))]) ∧
    (∀ content, env.files fp = some content → dt ≠ "contact" → dt ≠ "company" →
      uploadHandler env hdrs dt fp =
        [Event.readCsv fp, Event.log ("Unsupported data type: " ++ dt),
         Event.print ("Error: " ++ ("Unsupported data type: " ++ dt)),
         Event.log ("Error: " ++ ("Unsupported data type: " ++ dt))]) := by
  constructor
  · intro hf
    exact uploadHandler_missing env hdrs dt fp hf
  · intro content hf h1 h2
    exact uploadHandler_badtype env hdrs fp dt (by rw [hf]; rfl) h1 h2

/-- Witness for C9: missing file with unsupported type reports file-not-found;
existing file with unsupported type is read before the type error. -/
theorem upload_file_check_before_type_check_witness :
    uploadHandler envNoKey (headers "K") "invoice" "ghost.csv" =
      [Event.log ("CSV file '" ++ "ghost.csv" ++ "' not found."),
       Event.print ("Error: " ++ ("CSV file '" ++ "ghost.csv" ++ "' not found.")),
       Event.log ("Error: " ++ ("CSV file '" ++ "ghost.csv" ++ "' not found."))] ∧
    uploadHandler envDemo (headers "K") "invoice" "rows.csv" =
      [Event.readCsv "rows.csv", Event.log ("Unsupported data type: " ++ "invoice"),
       Event.print ("Error: " ++ ("Unsupported data type: " ++ "invoice")),
       Event.log ("Error: " ++ ("Unsupported data type: " ++ "invoice"))] :=
  ⟨(upload_file_check_before_type_check envNoKey (headers "K") "ghost.csv" "invoice").1 rfl,
   (upload_file_check_before_type_check envDemo (headers "K") "rows.csv" "invoice").2
     "name,email\nAda,ada@x.io\nBob,bob@x.io\nCyd,cyd@x.io\n" rfl
     (by decide) (by decide)⟩

/-- The numbered printing loop, characterised by list enumeration: item
`i` of the enumeration from `idx` yields the pair of prints `Item i:` and
the indented JSON dump. -/
theorem printItems_enumFrom (xs : List JsonVal) (idx : Nat) :
    printItems idx xs =
      (List.enumFrom idx xs).flatMap
        (fun p => [Event.print ("Item " ++ toString p.1 ++ ":"),
                   Event.print (json_dumps p.2)]) := by
  induction xs generalizing idx with
  | nil => rfl
  | cons x rest ih => simp [printItems, List.enumFrom, ih (idx + 1)]

/-- C8: `pretty_print_json` prints a dict as one numbered indented item,
a list as one numbered indented item per element in order starting at 1,
and for any other shape logs and prints an error and prints no items. -/
theorem pretty_print_json_shapes :
    (∀ fields, pretty_print_json (JsonVal.obj fields) =
      [Event.print ("Item " ++ toString 1 ++ ":"),
       Event.print (json_dumps (JsonVal.obj fields))]) ∧
    (∀ items, pretty_print_json (JsonVal.arr items) =
      (List.enumFrom 1 items).flatMap
        (fun p => [Event.print ("Item " ++ toString p.1 ++ ":"),
                   Event.print (json_dumps p.2)])) ∧
    (∀ data, (∀ fields, data ≠ JsonVal.obj fields) →
      (∀ items, data ≠ JsonVal.arr items) →
      pretty_print_json data =
        [Event.log "Unexpected data format. Expected a list or dict.",
         Event.print "Unexpected data format."]) := by
  refine ⟨fun fields => rfl, fun items => printItems_enumFrom items 1, ?_⟩
  intro data hobj harr
  cases data with
  | obj fields => exact absurd rfl (hobj fields)
  | arr items => exact absurd rfl (harr items)
  | str s => rfl
  | num n => rfl
  | bool b => rfl
  | null => rfl

/-- Witness for C8: a one-field dict, a two-element list, and a bare string. -/
theorem pretty_print_json_shapes_witness :
    pretty_print_json (JsonVal.obj [("a", JsonVal.num 1)]) =
      [Event.print ("Item " ++ toString 1 ++ ":"),
       Event.print (json_dumps (JsonVal.obj [("a", JsonVal.num 1)]))] ∧
    pretty_print_json (JsonVal.arr [JsonVal.num 1, JsonVal.str "x"]) =
      (List.enumFrom 1 [JsonVal.num 1, JsonVal.str "x"]).flatMap
        (fun p => [Event.print ("Item " ++ toString p.1 ++ ":"),
                   Event.print (json_dumps p.2)]) ∧
    pretty_print_json JsonVal.null =
      [Event.log "Unexpected data format. Expected a list or dict.",
       Event.print "Unexpected data format."] :=
  ⟨pretty_print_json_shapes.1 [("a", JsonVal.num 1)],
   pretty_print_json_shapes.2.1 [JsonVal.num 1, JsonVal.str "x"],
   pretty_print_json_shapes.2.2 JsonVal.null (fun _ h => nomatch h) (fun _ h => nomatch h)⟩

/-- C4 counterexample: a `create` run answered with status 200 prints
exactly the Spanish message `Solicitud aceptada: ok`, which does not
contain the word `accepted`. -/
theorem create_accepted_counterexample :
    prints (main_run envAccepted (Cmd.create "Ada" "ada@x.io" "X")).events =
      ["Solicitud aceptada: " ++ "ok"] ∧
    ¬ strContains ("Solicitud aceptada: " ++ "ok") "accepted" := by
  exact ⟨rfl, by decide⟩

/-- C4 (amended): a create response of status 201 prints
`Contact created: <json>`; status 200 prints `Solicitud aceptada: <text>`
(Spanish for request accepted) — the two statuses print messages with
distinct fixed prefixes. -/
theorem create_status_messages (env : Env) (hdrs : List (String × String))
    (n e c : String) (r : Response) (hnet : env.net 0 = HttpOutcome.resp r) :
    (∀ j, r.status = 201 → r.jsonBody = some j →
      prints (createHandler env hdrs n e c) = ["Contact created: " ++ pyRepr j]) ∧
    (r.status = 200 →
      prints (createHandler env hdrs n e c) = ["Solicitud aceptada: " ++ r.text]) := by
  constructor
  · intro j h201 hj
    simp [createHandler, hnet, h201, hj, (by decide : raisesForStatus 201 = false)]
  · intro h200
    simp [createHandler, hnet, h200, (by decide : raisesForStatus 200 = false)]

/-- Witness for C4's amended claim at concrete 201 and 200 responses. -/
theorem create_status_messages_witness :
    prints (createHandler envCreated (headers "K") "Ada" "ada@x.io" "X") =
      ["Contact created: " ++ pyRepr (JsonVal.obj [("id", JsonVal.num 7)])] ∧
    prints (createHandler envAccepted (headers "K") "Ada" "ada@x.io" "X") =
      ["Solicitud aceptada: " ++ "ok"] :=
  ⟨(create_status_messages envCreated (headers "K") "Ada" "ada@x.io" "X"
      ⟨201, some (JsonVal.obj [("id", JsonVal.num 7)]), "created"⟩ rfl).1
      (JsonVal.obj [("id", JsonVal.num 7)]) rfl rfl,
   (create_status_messages envAccepted (headers "K") "Ada" "ada@x.io" "X"
      ⟨200, some (JsonVal.obj []), "ok"⟩ rfl).2 rfl⟩

/-- Key present; every request is answered with HTTP 500 and text `boom`. -/
def envEnrichFail : Env :=
  ⟨fun p => if p = "api_key.key" then some "K" else none,
   fun _ => [], fun _ => HttpOutcome.resp ⟨500, none, "boom"⟩⟩

/-- Key present; every request fails at the transport level. -/
def envConnFail : Env :=
  ⟨fun p => if p = "api_key.key" then some "K" else none,
   fun _ => [], fun _ => HttpOutcome.exn "connection refused"⟩

/-- Company handler on an HTTP error status: printed and logged. -/
theorem companyHandler_httpError (env : Env) (hdrs : List (String × String)) (q : String)
    (r : Response) (hnet : env.net 0 = HttpOutcome.resp r)
    (hs : raisesForStatus r.status = true) :
    companyHandler env hdrs q =
      [Event.post (BASE_URL ++ "/accounts") hdrs (JsonVal.obj [("name", JsonVal.str q)]),
       Event.print ("HTTP error occurred: " ++ httpErrText r.status),
       Event.log ("HTTP error occurred: " ++ httpErrText r.status)] := by
  simp [companyHandler, hnet, hs]

/-- Company handler on a transport error: printed and logged. -/
theorem companyHandler_transportError (env : Env) (hdrs : List (String × String))
    (q m : String) (hnet : env.net 0 = HttpOutcome.exn m) :
    companyHandler env hdrs q =
      [Event.post (BASE_URL ++ "/accounts") hdrs (JsonVal.obj [("name", JsonVal.str q)]),
       Event.print ("An error occurred: " ++ m),
       Event.log ("An error occurred: " ++ m)] := by
  simp [companyHandler, hnet]

/-- Create handler on an HTTP error status: printed and logged. -/
theorem createHandler_httpError (env : Env) (hdrs : List (String × String))
    (n e c : String) (r : Response) (hnet : env.net 0 = HttpOutcome.resp r)
    (hs : raisesForStatus r.status = true) :
    createHandler env hdrs n e c =
      [Event.post (BASE_URL ++ "/contacts") hdrs
         (JsonVal.obj [("first_name", JsonVal.str n), ("email", JsonVal.str e),
                       ("company", JsonVal.str c)]),
       Event.print ("HTTP error occurred: " ++ httpErrText r.status),
       Event.log ("HTTP error occurred: " ++ httpErrText r.status)] := by
  simp [createHandler, hnet, hs]

/-- Create handler on a transport error: printed and logged. -/
theorem createHandler_transportError (env : Env) (hdrs : List (String × String))
    (n e c m : String) (hnet : env.net 0 = HttpOutcome.exn m) :
    createHandler env hdrs n e c =
      [Event.post (BASE_URL ++ "/contacts") hdrs
         (JsonVal.obj [("first_name", JsonVal.str n), ("email", JsonVal.str e),
                       ("company", JsonVal.str c)]),
       Event.print ("An error occurred: " ++ m),
       Event.log ("An error occurred: " ++ m)] := by
  simp [createHandler, hnet]

/-- A row whose request gets an HTTP error status: logged and printed, and
the loop continues with the remaining rows. -/
theorem uploadRows_rowHttpError (env : Env) (hdrs : List (String × String))
    (url : String) (row : Row) (rest : List Row) (k : Nat) (r : Response)
    (hnet : env.net k = HttpOutcome.resp r) (hs : raisesForStatus r.status = true) :
    uploadRows env hdrs url (row :: rest) k =
      Event.post url hdrs (JsonVal.obj row) ::
        Event.log ("HTTP error occurred: " ++ httpErrText r.status) ::
        Event.print ("HTTP error occurred: " ++ httpErrText r.status) ::
        uploadRows env hdrs url rest (k + 1) := by
  simp [uploadRows, hnet, hs]

/-- A row whose request fails at the transport level: logged and printed,
and the loop continues with the remaining rows. -/
theorem uploadRows_rowTransportError (env : Env) (hdrs : List (String × String))
    (url : String) (row : Row) (rest : List Row) (k : Nat) (m : String)
    (hnet : env.net k = HttpOutcome.exn m) :
    uploadRows env hdrs url (row :: rest) k =
      Event.post url hdrs (JsonVal.obj row) ::
        Event.log ("An error occurred: " ++ m) ::
        Event.print ("An error occurred: " ++ m) ::
        uploadRows env hdrs url rest (k + 1) := by
  simp [uploadRows, hnet]

/-- Enrich branch on a transport error: the exception escapes
`enrich_domains` and the `__main__` catch prints and logs it. -/
theorem enrichHandler_transportError (env : Env) (hdrs : List (String × String))
    (ds : List String) (m : String) (hnet : env.net 0 = HttpOutcome.exn m) :
    enrichHandler env hdrs ds =
      [Event.post enrichUrl hdrs
         (JsonVal.obj [("domains", JsonVal.arr (ds.map JsonVal.str))]),
       Event.print ("Error: " ++ m),
       Event.log ("Error: " ++ m)] := by
  simp [enrichHandler, enrich_domains, hnet, PyError.msg]

/-- Enrich branch on a non-200 status: the status and the raw body are
printed, and nothing is logged — `enrich_domains` has no logger call on
this path. -/
theorem enrichHandler_non200 (env : Env) (hdrs : List (String × String))
    (ds : List String) (r : Response) (hnet : env.net 0 = HttpOutcome.resp r)
    (hs : r.status ≠ 200) :
    enrichHandler env hdrs ds =
      [Event.post enrichUrl hdrs
         (JsonVal.obj [("domains", JsonVal.arr (ds.map JsonVal.str))]),
       Event.print ("Error: " ++ toString r.status),
       Event.print r.text] ∧
    logs (enrichHandler env hdrs ds) = [] := by
  have htrace : enrichHandler env hdrs ds =
      [Event.post enrichUrl hdrs
         (JsonVal.obj [("domains", JsonVal.arr (ds.map JsonVal.str))]),
       Event.print ("Error: " ++ toString r.status),
       Event.print r.text] := by
    simp [enrichHandler, enrich_domains, hnet, hs]
  exact ⟨htrace, by rw [htrace]; rfl⟩

/-- C6 counterexample: a concrete `enrich` run answered with HTTP 500 — a
remote-call failure — prints the status and body but produces no log line
at all, while still exiting 0: the failure is printed, not logged. -/
theorem enrich_http_error_not_logged :
    (main_run envEnrichFail (Cmd.enrich ["example.com"])).events =
      [Event.post enrichUrl (headers "K")
         (JsonVal.obj [("domains", JsonVal.arr [JsonVal.str "example.com"])]),
       Event.print ("Error: " ++ toString 500),
       Event.print "boom"] ∧
    logs (main_run envEnrichFail (Cmd.enrich ["example.com"])).events = [] ∧
    (main_run envEnrichFail (Cmd.enrich ["example.com"])).exitCode = 0 :=
  ⟨rfl, rfl, rfl⟩

/-- C6 (amended): whenever the credential file exists the process exits
with code 0 for every subcommand, whatever each request's outcome — no
remote-call failure propagates as a process failure, and every such
failure is printed.  Each failure is also logged, with one exception: a
non-200 HTTP response in the enrich handler is printed (status, then raw
body) without any logger call. -/
theorem remote_failures_reported_exit_zero :
    (∀ (env : Env) (cmd : Cmd) (content : String),
      env.files "api_key.key" = some content → (main_run env cmd).exitCode = 0) ∧
    (∀ (env : Env) (hdrs : List (String × String)) (q : String) (r : Response),
      env.net 0 = HttpOutcome.resp r → raisesForStatus r.status = true →
      companyHandler env hdrs q =
        [Event.post (BASE_URL ++ "/accounts") hdrs (JsonVal.obj [("name", JsonVal.str q)]),
         Event.print ("HTTP error occurred: " ++ httpErrText r.status),
         Event.log ("HTTP error occurred: " ++ httpErrText r.status)]) ∧
    (∀ (env : Env) (hdrs : List (String × String)) (q m : String),
      env.net 0 = HttpOutcome.exn m →
      companyHandler env hdrs q =
        [Event.post (BASE_URL ++ "/accounts") hdrs (JsonVal.obj [("name", JsonVal.str q)]),
         Event.print ("An error occurred: " ++ m),
         Event.log ("An error occurred: " ++ m)]) ∧
    (∀ (env : Env) (hdrs : List (String × String)) (n e c : String) (r : Response),
      env.net 0 = HttpOutcome.resp r → raisesForStatus r.status = true →
      createHandler env hdrs n e c =
        [Event.post (BASE_URL ++ "/contacts") hdrs
           (JsonVal.obj [("first_name", JsonVal.str n), ("email", JsonVal.str e),
                         ("company", JsonVal.str c)]),
         Event.print ("HTTP error occurred: " ++ httpErrText r.status),
         Event.log ("HTTP error occurred: " ++ httpErrText r.status)]) ∧
    (∀ (env : Env) (hdrs : List (String × String)) (n e c m : String),
      env.net 0 = HttpOutcome.exn m →
      createHandler env hdrs n e c =
        [Event.post (BASE_URL ++ "/contacts") hdrs
           (JsonVal.obj [("first_name", JsonVal.str n), ("email", JsonVal.str e),
                         ("company", JsonVal.str c)]),
         Event.print ("An error occurred: " ++ m),
         Event.log ("An error occurred: " ++ m)]) ∧
    (∀ (env : Env) (hdrs : List (String × String)) (url : String) (row : Row)
      (rest : List Row) (k : Nat) (r : Response),
      env.net k = HttpOutcome.resp r → raisesForStatus r.status = true →
      uploadRows env hdrs url (row :: rest) k =
        Event.post url hdrs (JsonVal.obj row) ::
          Event.log ("HTTP error occurred: " ++ httpErrText r.status) ::
          Event.print ("HTTP error occurred: " ++ httpErrText r.status) ::
          uploadRows env hdrs url rest (k + 1)) ∧
    (∀ (env : Env) (hdrs : List (String × String)) (url : String) (row : Row)
      (rest : List Row) (k : Nat) (m : String),
      env.net k = HttpOutcome.exn m →
      uploadRows env hdrs url (row :: rest) k =
        Event.post url hdrs (JsonVal.obj row) ::
          Event.log ("An error occurred: " ++ m) ::
          Event.print ("An error occurred: " ++ m) ::
          uploadRows env hdrs url rest (k + 1)) ∧
    (∀ (env : Env) (hdrs : List (String × String)) (ds : List String) (m : String),
      env.net 0 = HttpOutcome.exn m →
      enrichHandler env hdrs ds =
        [Event.post enrichUrl hdrs
           (JsonVal.obj [("domains", JsonVal.arr (ds.map JsonVal.str))]),
         Event.print ("Error: " ++ m),
         Event.log ("Error: " ++ m)]) ∧
    (∀ (env : Env) (hdrs : List (String × String)) (ds : List String) (r : Response),
      env.net 0 = HttpOutcome.resp r → r.status ≠ 200 →
      enrichHandler env hdrs ds =
        [Event.post enrichUrl hdrs
           (JsonVal.obj [("domains", JsonVal.arr (ds.map JsonVal.str))]),
         Event.print ("Error: " ++ toString r.status),
         Event.print r.text] ∧
      logs (enrichHandler env hdrs ds) = []) :=
  ⟨exit_zero_when_key_present, companyHandler_httpError, companyHandler_transportError,
   createHandler_httpError, createHandler_transportError, uploadRows_rowHttpError,
   uploadRows_rowTransportError, enrichHandler_transportError, enrichHandler_non200⟩

/-- Witness for C6's amended claim: exit 0 under an all-500 environment;
a company HTTP failure printed and logged; an enrich transport failure
printed and logged; an enrich 500 printed (status, body) with no log. -/
theorem remote_failures_reported_exit_zero_witness :
    (main_run envEnrichFail (Cmd.enrich ["example.com"])).exitCode = 0 ∧
    companyHandler envEnrichFail (headers "K") "Acme" =
      [Event.post (BASE_URL ++ "/accounts") (headers "K")
         (JsonVal.obj [("name", JsonVal.str "Acme")]),
       Event.print ("HTTP error occurred: " ++ httpErrText 500),
       Event.log ("HTTP error occurred: " ++ httpErrText 500)] ∧
    enrichHandler envConnFail (headers "K") ["example.com"] =
      [Event.post enrichUrl (headers "K")
         (JsonVal.obj [("domains", JsonVal.arr [JsonVal.str "example.com"])]),
       Event.print ("Error: " ++ "connection refused"),
       Event.log ("Error: " ++ "connection refused")] ∧
    enrichHandler envEnrichFail (headers "K") ["example.com"] =
      [Event.post enrichUrl (headers "K")
         (JsonVal.obj [("domains", JsonVal.arr [JsonVal.str "example.com"])]),
       Event.print ("Error: " ++ toString 500),
       Event.print "boom"] ∧
    logs (enrichHandler envEnrichFail (headers "K") ["example.com"]) = [] :=
  ⟨remote_failures_reported_exit_zero.1 envEnrichFail (Cmd.enrich ["example.com"]) "K" rfl,
   remote_failures_reported_exit_zero.2.1 envEnrichFail (headers "K") "Acme"
     ⟨500, none, "boom"⟩ rfl (by decide),
   remote_failures_reported_exit_zero.2.2.2.2.2.2.2.1 envConnFail (headers "K")
     ["example.com"] "connection refused" rfl,
   (remote_failures_reported_exit_zero.2.2.2.2.2.2.2.2 envEnrichFail (headers "K")
     ["example.com"] ⟨500, none, "boom"⟩ rfl (by decide)).1,
   (remote_failures_reported_exit_zero.2.2.2.2.2.2.2.2 envEnrichFail (headers "K")
     ["example.com"] ⟨500, none, "boom"⟩ rfl (by decide)).2⟩
